import Mathlib

/-!
Verification of the OrbitFS backend adapter (src/backend/OrbitFS.ts) of the
BrowserFS fork.  The adapter maps the filesystem capability contract
(stat, readdir, mkdir, rmdir, unlink, rename, empty, file sync/close and
two-phase construction) onto an external asynchronous store.

Modelling conventions.  Every external store primitive (ls, stat, mkdir, mv,
rm, empty of generic/orbitfs, and the host blob writer) completes exactly once
with a success value or an error, per the external-interface contract; its
outcome is passed to the adapter function as an explicit parameter.  Each
adapter operation returns the store calls it issued together with the list of
completion-callback invocations it performed (each invocation carrying the
callback's error argument), so that "calls back exactly once", "issues no
removal", and similar temporal statements become statements about lists.
-/

/-- A store-native error value; its shape is opaque to the adapter, modelled
as a plain string. -/
abbrev NativeErr := String

/-- Modelled from the spec: the classified error taxonomy of core/api_error
(not under src/): not-found, not-a-directory, not-empty and generic kinds,
each carrying the offending path or message. -/
inductive ApiError
  | ENOENT (msg : String)
  | ENOTDIR (msg : String)
  | ENOTEMPTY (msg : String)
  | EIO (msg : String)
deriving DecidableEq

/-- An error value delivered to a caller's completion callback: either a
classified taxonomy error built at the contract boundary, or a store-native
error object passed through unchanged. -/
inductive CbError
  | api (e : ApiError)
  | native (e : NativeErr)
deriving DecidableEq

/-- Modelled from the spec: the entries of the external store
(generic/orbitfs, not under src/): a path holds either a file with a byte
size or a directory with its ordered child-name listing. -/
inductive StoreEntry
  | file (size : Nat)
  | dir (entries : List String)
deriving DecidableEq

/-- Modelled from the spec: the external store's state, a finite map from
paths to entries. -/
abbrev Store := List (String × StoreEntry)

/-- Lookup of a path in the store state. -/
def store_lookup (s : Store) (p : String) : Option StoreEntry :=
  match s with
  | [] => none
  | (q, e) :: rest => if q = p then some e else store_lookup rest p

/-- The shape of the external store's stat result as the adapter reads it:
a type tag string plus size and block count. -/
structure StatInfo where
  type : String
  size : Nat
  blocks : Nat
deriving DecidableEq

/-- Modelled from the spec: the store primitive stat(path), failing with a
native error when the path is absent. -/
def store_stat (s : Store) (p : String) : Except NativeErr StatInfo :=
  match store_lookup s p with
  | none => Except.error ("no such file or directory: " ++ p)
  | some (StoreEntry.file n) => Except.ok ⟨"file", n, 0⟩
  | some (StoreEntry.dir es) => Except.ok ⟨"directory", 0, es.length⟩

/-- Modelled from the spec: the store primitive ls(path), returning the
ordered child names of a directory and failing with a native error when the
path is absent or not a directory. -/
def store_ls (s : Store) (p : String) : Except NativeErr (List String) :=
  match store_lookup s p with
  | none => Except.error ("no such file or directory: " ++ p)
  | some (StoreEntry.file _) => Except.error ("not a directory: " ++ p)
  | some (StoreEntry.dir es) => Except.ok es

/-- The two file types the adapter's stat can report. -/
inductive FileType
  | FILE
  | DIRECTORY
deriving DecidableEq

/-- Modelled from the spec: the contract's Stat Record (core/node_fs_stats,
not under src/), a file-or-directory tag plus the size slot the adapter
fills. -/
structure Stats where
  ftype : FileType
  size : Nat
deriving DecidableEq

/-- OrbitFS.stat: queries the store's stat; a failed store stat is classified
ENOENT carrying the native message; on success the type tag selects a FILE
stat with the size or a DIRECTORY stat with the block count, any other tag
yielding ENOENT of the path. -/
def OrbitFS.stat (s : Store) (path : String) (_isLstat : Bool) :
    Except CbError Stats :=
  match store_stat s path with
  | Except.error err => Except.error (CbError.api (ApiError.ENOENT err))
  | Except.ok res =>
    match res.type with
    | "file" => Except.ok ⟨FileType.FILE, res.size⟩
    | "directory" => Except.ok ⟨FileType.DIRECTORY, res.blocks⟩
    | _ => Except.error (CbError.api (ApiError.ENOENT path))

/-- OrbitFS.readdir: lists the path via the store's ls; a failed ls is
classified ENOTDIR carrying the native message; a successful listing is
passed through. -/
def OrbitFS.readdir (s : Store) (path : String) :
    Except CbError (List String) :=
  match store_ls s path with
  | Except.error err => Except.error (CbError.api (ApiError.ENOTDIR err))
  | Except.ok res => Except.ok res

/-- The options record handed to the store's rm. -/
structure RmOpts where
  recursive : Bool
deriving DecidableEq

/-- One invocation of the store's rm primitive: the paths argument and the
recursive flag of the options. -/
structure RmCall where
  paths : List String
  recursive : Bool
deriving DecidableEq

/-- OrbitFS._remove: calls the store's rm on [path] with recursive set to the
isFile discriminator; the rm completion (an optional native error per the
store contract) drives the callback: cb(err) when an error is reported, and
nothing at all otherwise.  Returns the rm calls issued and the callback
invocations performed. -/
def OrbitFS._remove (rmResult : Option NativeErr) (path : String)
    (isFile : Bool) : List RmCall × List (Option CbError) :=
  let opts : RmOpts := ⟨isFile⟩
  ([⟨[path], opts.recursive⟩],
    match rmResult with
    | some err => [some (CbError.native err)]
    | none => [])

/-- OrbitFS.unlink: routes to _remove with the file discriminator true. -/
def OrbitFS.unlink (rmResult : Option NativeErr) (path : String) :
    List RmCall × List (Option CbError) :=
  OrbitFS._remove rmResult path true

/-- OrbitFS.rmdir: first lists the path via readdir; a listing error is
passed to the callback; a non-empty listing yields ENOTEMPTY of the path with
no removal; only an empty listing reaches _remove with the file
discriminator false. -/
def OrbitFS.rmdir (s : Store) (rmResult : Option NativeErr) (path : String) :
    List RmCall × List (Option CbError) :=
  match OrbitFS.readdir s path with
  | Except.error e => ([], [some e])
  | Except.ok files =>
    if files.length > 0 then
      ([], [some (CbError.api (ApiError.ENOTEMPTY path))])
    else
      OrbitFS._remove rmResult path false

/-- OrbitFS.rename: passes the caller's callback directly to the store's mv,
so the mv completion (success or native error) is delivered unchanged. -/
def OrbitFS.rename (mvResult : Option NativeErr) (_oldPath _newPath : String) :
    Option CbError :=
  mvResult.map CbError.native

/-- OrbitFS.mkdir: passes the caller's callback directly to the store's
mkdir, so its completion is delivered unchanged. -/
def OrbitFS.mkdir (mkdirResult : Option NativeErr) (_path : String)
    (_mode : Nat) : Option CbError :=
  mkdirResult.map CbError.native

/-- OrbitFS.empty: passes the caller's callback directly to the store's
empty, so its completion is delivered unchanged. -/
def OrbitFS.empty (emptyResult : Option NativeErr) : Option CbError :=
  emptyResult.map CbError.native

/-- Modelled from the spec: the dirty-buffer file state of
generic/preload_file (not under src/): the full in-memory byte content of
the open file plus the dirty flag; isDirty, getBuffer and resetDirty read
and clear these. -/
structure FileState where
  buffer : List Nat
  dirty : Bool
deriving DecidableEq

/-- Modelled from the spec: the single-shot completion of the host blob
writer used by the flush — the write either succeeds or fails with a native
error, exactly once. -/
inductive WriteOutcome
  | ok
  | failure (e : NativeErr)
deriving DecidableEq

/-- The observable result of one sync or close call on a file handle: the
handle state afterwards, the blobs written to the store, the truncate lengths
requested, and the callback invocations performed. -/
structure SyncResult where
  state : FileState
  writes : List (List Nat)
  truncates : List Nat
  cb : List (Option CbError)
deriving DecidableEq

/-- OrbitFSFile.sync: a clean handle calls back success at once with no store
call; a dirty handle materializes the buffer as a blob and writes it: on
write success it truncates to the blob's exact byte length, clears the dirty
flag and calls back success; on write failure it calls back with the writer's
error, leaving the dirty flag set. -/
def OrbitFSFile.sync (st : FileState) (w : WriteOutcome) : SyncResult :=
  if !st.dirty then
    ⟨st, [], [], [none]⟩
  else
    let buffer := st.buffer
    let blob := buffer
    let length := blob.length
    match w with
    | WriteOutcome.ok => ⟨⟨st.buffer, false⟩, [blob], [length], [none]⟩
    | WriteOutcome.failure e => ⟨st, [blob], [], [some (CbError.native e)]⟩

/-- OrbitFSFile.close: delegates to sync with the caller's callback. -/
def OrbitFSFile.close (st : FileState) (w : WriteOutcome) : SyncResult :=
  OrbitFSFile.sync st w

/-- The construction options: optional address and optional permission
list. -/
structure OrbitFSOptions where
  address : Option String
  permissions : Option (List String)
deriving DecidableEq

/-- A handle to a bound store connection (opaque to the adapter). -/
abbrev StoreHandle := Nat

/-- An OrbitFS backend instance: the configured address, the authorized
writer list, and the store connection bound by phase 2 (absent while the
instance is inert). -/
structure OrbitFSInstance where
  address : String
  permissions : List String
  fs : Option StoreHandle
deriving DecidableEq

/-- The private constructor: address defaults to the empty string and
permissions to the wildcard list; the store field is not yet bound. -/
def OrbitFS.mkInstance (opts : OrbitFSOptions) : OrbitFSInstance :=
  ⟨opts.address.getD "", opts.permissions.getD ["*"], none⟩

/-- Modelled from the spec: the single-shot outcome of the phase-2 binder
(orbitfs.create / orbitfs.createDefault of generic/orbitfs, not under src/):
either a bound store connection or a failure. -/
inductive BindOutcome
  | ok (h : StoreHandle)
  | fail (e : NativeErr)
deriving DecidableEq

/-- OrbitFS._allocate: attempts the phase-2 binding inside a try/catch; on
success it stores the bound connection on the instance and calls back with no
error; a binding failure is caught and passed to the callback unchanged. -/
def OrbitFS._allocate (b : BindOutcome) (inst : OrbitFSInstance) :
    OrbitFSInstance × List (Option CbError) :=
  match b with
  | BindOutcome.ok h => (⟨inst.address, inst.permissions, some h⟩, [none])
  | BindOutcome.fail e => (inst, [some (CbError.native e)])

/-- OrbitFS.Create: constructs the inert instance from the options and runs
_allocate; each _allocate callback with an error is forwarded as cb(e) with
no instance, and a success callback becomes cb(null, fs) with the bound
instance.  Returns the list of completion-callback invocations, each carrying
the error argument and the instance argument. -/
def OrbitFS.Create (b : BindOutcome) (opts : OrbitFSOptions) :
    List (Option CbError × Option OrbitFSInstance) :=
  let fs := OrbitFS.mkInstance opts
  let r := OrbitFS._allocate b fs
  r.2.map (fun c =>
    match c with
    | some e => (some e, none)
    | none => (none, some r.1))

/-- OrbitFS.CreateDefault: constructs the inert instance with empty options
and runs the default binder with no try/catch and no error parameter in its
callback: on success cb(null, fs) fires with the bound instance; a binder
failure escapes as an exception (the Except.error case) and the callback is
never invoked. -/
def OrbitFS.CreateDefault (b : BindOutcome) :
    Except NativeErr (List (Option CbError × Option OrbitFSInstance)) :=
  let fs := OrbitFS.mkInstance ⟨none, none⟩
  match b with
  | BindOutcome.ok h =>
    Except.ok [(none, some ⟨fs.address, fs.permissions, some h⟩)]
  | BindOutcome.fail e => Except.error e

/-- A concrete store with a non-empty directory, for witnesses. -/
def exStoreNE : Store :=
  [("/a", StoreEntry.dir ["b"]), ("/a/b", StoreEntry.dir [])]

/-- A concrete store holding one empty directory, for witnesses. -/
def exStoreED : Store := [("/d", StoreEntry.dir [])]

/-- The rmdir branch taken when the initial listing fails: the listing's
classified error is passed to the callback and no removal call is issued. -/
theorem rmdir_of_ls_error (s : Store) (r : Option NativeErr) (p : String)
    (e : NativeErr) (h : store_ls s p = Except.error e) :
    OrbitFS.rmdir s r p = ([], [some (CbError.api (ApiError.ENOTDIR e))]) := by
  unfold OrbitFS.rmdir OrbitFS.readdir
  rw [h]

/-- The rmdir branch taken when the initial listing succeeds: the emptiness
test on the listing decides between ENOTEMPTY and the removal primitive. -/
theorem rmdir_of_ls_ok (s : Store) (r : Option NativeErr) (p : String)
    (files : List String) (h : store_ls s p = Except.ok files) :
    OrbitFS.rmdir s r p =
      if files.length > 0 then
        ([], [some (CbError.api (ApiError.ENOTEMPTY p))])
      else OrbitFS._remove r p false := by
  unfold OrbitFS.rmdir OrbitFS.readdir
  rw [h]

/-- A store stat of a path absent from the store fails. -/
theorem store_stat_of_lookup_none (s : Store) (p : String)
    (h : store_lookup s p = none) :
    store_stat s p = Except.error ("no such file or directory: " ++ p) := by
  unfold store_stat
  rw [h]

/-- A store ls of a path absent from the store fails. -/
theorem store_ls_of_lookup_none (s : Store) (p : String)
    (h : store_lookup s p = none) :
    store_ls s p = Except.error ("no such file or directory: " ++ p) := by
  unfold store_ls
  rw [h]

/-- Claim C1: the claim says every contract operation invokes its completion
callback exactly once; the code contradicts it — on a successful removal the
_remove primitive never invokes the callback.  unlink of "/f" with a
succeeding store rm performs zero callback invocations, while a failing rm
performs exactly one. -/
theorem unlink_success_drops_callback :
    (OrbitFS.unlink none "/f").2 = [] ∧
    (OrbitFS.unlink (some "rm failed") "/f").2 =
      [some (CbError.native "rm failed")] := by
  constructor <;> rfl

/-- Claim C2: rmdir first lists the target; a listing with at least one entry
makes rmdir fail with ENOTEMPTY and issue no rm call (store untouched), and
the removal primitive runs only when the listing is empty. -/
theorem rmdir_checks_empty_first (s : Store) (r : Option NativeErr)
    (p : String) :
    (∀ files, store_ls s p = Except.ok files → files.length > 0 →
      OrbitFS.rmdir s r p =
        ([], [some (CbError.api (ApiError.ENOTEMPTY p))])) ∧
    ((OrbitFS.rmdir s r p).1 ≠ [] → store_ls s p = Except.ok []) := by
  constructor
  · intro files hf hlen
    rw [rmdir_of_ls_ok s r p files hf, if_pos hlen]
  · intro h
    cases hls : store_ls s p with
    | error e =>
      rw [rmdir_of_ls_error s r p e hls] at h
      simp at h
    | ok files =>
      rw [rmdir_of_ls_ok s r p files hls] at h
      by_cases hlen : files.length > 0
      · rw [if_pos hlen] at h
        simp at h
      · have hz : files = [] := List.length_eq_zero.mp
          (Nat.eq_zero_of_not_pos hlen)
        subst hz
        rfl

/-- Claim C2 witness: on a concrete store whose directory "/a" holds one
entry, rmdir fails with ENOTEMPTY and issues no removal. -/
theorem rmdir_checks_empty_first_witness :
    OrbitFS.rmdir exStoreNE none "/a" =
      ([], [some (CbError.api (ApiError.ENOTEMPTY "/a"))]) :=
  (rmdir_checks_empty_first exStoreNE none "/a").1 ["b"] rfl (by decide)

/-- Claim C3: sync on a dirty handle performs exactly one flush — one write
of the full buffer as a blob; on write success it truncates to the blob's
exact byte length, clears the dirty flag and calls back success; on write
failure the dirty flag stays set and the writer's error is delivered to the
caller unchanged. -/
theorem sync_dirty_flushes_once (buf : List Nat) (e : NativeErr) :
    OrbitFSFile.sync ⟨buf, true⟩ WriteOutcome.ok =
      ⟨⟨buf, false⟩, [buf], [buf.length], [none]⟩ ∧
    OrbitFSFile.sync ⟨buf, true⟩ (WriteOutcome.failure e) =
      ⟨⟨buf, true⟩, [buf], [], [some (CbError.native e)]⟩ := by
  constructor <;> rfl

/-- Claim C4 counterexample: the claim says close transitions the handle to a
terminal Closed state in which any further call errors; in the code close is
only sync — after closing a clean handle the state is unchanged and a further
sync call still succeeds. -/
theorem close_not_terminal :
    (OrbitFSFile.close ⟨[7], false⟩ WriteOutcome.ok).state = ⟨[7], false⟩ ∧
    (OrbitFSFile.sync (OrbitFSFile.close ⟨[7], false⟩ WriteOutcome.ok).state
      WriteOutcome.ok).cb = [none] := by
  constructor <;> rfl

/-- Claim C4 amended: close performs sync with the caller's callback and
nothing else — regardless of the handle's state or the writer's outcome — and
no invalidation or Closed transition occurs: a further call on the handle
behaves exactly as on an open handle. -/
theorem close_is_sync (st : FileState) (w w2 : WriteOutcome)
    (buf : List Nat) :
    OrbitFSFile.close st w = OrbitFSFile.sync st w ∧
    (OrbitFSFile.sync (OrbitFSFile.close ⟨buf, false⟩ w).state w2).cb =
      [none] := by
  constructor <;> rfl

/-- Claim C5 counterexample: the claim says a failing phase-2 binding makes
the completion callback receive an error; for CreateDefault the failure
instead escapes as an exception and the callback is never invoked at all. -/
theorem createdefault_swallows_failure :
    OrbitFS.CreateDefault (BindOutcome.fail "boom") = Except.error "boom" := by
  rfl

/-- Claim C5 amended: for Create a failing phase-2 binding invokes the
completion callback exactly once with the error and no instance; for
CreateDefault a binding failure is never delivered through the callback —
it escapes as an exception and no callback invocation occurs. -/
theorem create_failure_paths (e : NativeErr) (opts : OrbitFSOptions) :
    OrbitFS.Create (BindOutcome.fail e) opts =
      [(some (CbError.native e), none)] ∧
    OrbitFS.CreateDefault (BindOutcome.fail e) = Except.error e := by
  constructor <;> rfl

/-- Claim C6: a path never created makes stat fail with not-found and readdir
with not-a-directory; and in general every failed store stat is classified
ENOENT and every failed store ls is classified ENOTDIR, uniformly in the
native error's content (the code is chosen by call site, not by inspecting
the error). -/
theorem stat_readdir_classification (s : Store) (p : String) (lk : Bool) :
    (store_lookup s p = none →
      OrbitFS.stat s p lk = Except.error (CbError.api (ApiError.ENOENT
        ("no such file or directory: " ++ p))) ∧
      OrbitFS.readdir s p = Except.error (CbError.api (ApiError.ENOTDIR
        ("no such file or directory: " ++ p)))) ∧
    (∀ e, store_stat s p = Except.error e →
      OrbitFS.stat s p lk = Except.error (CbError.api (ApiError.ENOENT e))) ∧
    (∀ e, store_ls s p = Except.error e →
      OrbitFS.readdir s p =
        Except.error (CbError.api (ApiError.ENOTDIR e))) := by
  refine ⟨?_, ?_, ?_⟩
  · intro h
    constructor
    · unfold OrbitFS.stat
      rw [store_stat_of_lookup_none s p h]
    · unfold OrbitFS.readdir
      rw [store_ls_of_lookup_none s p h]
  · intro e he
    unfold OrbitFS.stat
    rw [he]
  · intro e he
    unfold OrbitFS.readdir
    rw [he]

/-- Claim C6 witness: on the empty store, stat of "/nope" yields ENOENT and
readdir of "/nope" yields ENOTDIR. -/
theorem stat_readdir_classification_witness :
    OrbitFS.stat ([] : Store) "/nope" false = Except.error (CbError.api
      (ApiError.ENOENT ("no such file or directory: " ++ "/nope"))) ∧
    OrbitFS.readdir ([] : Store) "/nope" = Except.error (CbError.api
      (ApiError.ENOTDIR ("no such file or directory: " ++ "/nope"))) :=
  (stat_readdir_classification ([] : Store) "/nope" false).1 rfl

/-- Claim C7 counterexample: the claim says failing operations always deliver
a classified taxonomy error and store-native shapes never escape; rename
passes its callback straight to the store's mv, so the store-native failure
is delivered to the caller unchanged, detail preserved. -/
theorem rename_native_error_escapes :
    OrbitFS.rename (some "store native failure") "/old" "/new" =
      some (CbError.native "store native failure") := by
  rfl

/-- Claim C7 amended: rename, mkdir and empty perform no classification at
the contract boundary — each delivers the store primitive's completion to the
caller unchanged: the store-native error on failure, success otherwise. -/
theorem passthrough_native_errors (e : NativeErr) (p q : String) (m : Nat) :
    OrbitFS.rename (some e) p q = some (CbError.native e) ∧
    OrbitFS.mkdir (some e) p m = some (CbError.native e) ∧
    OrbitFS.empty (some e) = some (CbError.native e) ∧
    OrbitFS.rename none p q = none ∧
    OrbitFS.mkdir none p m = none ∧
    OrbitFS.empty none = none := by
  exact ⟨rfl, rfl, rfl, rfl, rfl, rfl⟩

/-- Claim C8 counterexample: the claim says the recursion flag passed to rm
is recursive for a directory and non-recursive for a single file; the code
passes the opposite — unlink (a file) issues rm with recursive true, and
rmdir of the concrete empty directory "/d" issues rm with recursive false. -/
theorem removal_flag_inverted :
    (OrbitFS.unlink none "/f").1 = [⟨["/f"], true⟩] ∧
    (OrbitFS.rmdir exStoreED none "/d").1 = [⟨["/d"], false⟩] := by
  constructor <;> rfl

/-- Claim C8 amended: unlink and rmdir both route to the single removal
primitive _remove parameterized by the isFile discriminator (true for unlink,
false for rmdir on an empty listing), and the recursion flag passed to the
store's rm equals that discriminator itself: recursive for a single file,
non-recursive for a directory. -/
theorem removal_routing (r : Option NativeErr) (p : String) (b : Bool) :
    OrbitFS.unlink r p = OrbitFS._remove r p true ∧
    (OrbitFS._remove r p b).1 = [⟨[p], b⟩] ∧
    (∀ s, store_ls s p = Except.ok [] →
      (OrbitFS.rmdir s r p).1 = [⟨[p], false⟩]) := by
  refine ⟨rfl, rfl, ?_⟩
  intro s hs
  rw [rmdir_of_ls_ok s r p [] hs]
  rfl

/-- Claim C8 amended witness: on the concrete store holding the empty
directory "/d", rmdir issues the rm call with recursive false. -/
theorem removal_routing_witness :
    (OrbitFS.rmdir exStoreED none "/d").1 =
      [RmCall.mk ["/d"] false] :=
  (removal_routing none "/d" true).2.2 exStoreED rfl

/-- Claim C9: sync on a clean handle succeeds (one success callback) with no
store call and leaves the state unchanged, so a second sync in a row also
succeeds with no store call — sync is idempotent on a clean handle. -/
theorem sync_clean_noop (buf : List Nat) (w w2 : WriteOutcome) :
    OrbitFSFile.sync ⟨buf, false⟩ w = ⟨⟨buf, false⟩, [], [], [none]⟩ ∧
    OrbitFSFile.sync (OrbitFSFile.sync ⟨buf, false⟩ w).state w2 =
      ⟨⟨buf, false⟩, [], [], [none]⟩ := by
  constructor <;> rfl

/-- Claim C10: rmdir of a path absent from the store fails with the
not-a-directory error propagated from the initial readdir listing, and never
with the not-found error. -/
theorem rmdir_missing_path_enotdir (s : Store) (r : Option NativeErr)
    (p : String) (h : store_lookup s p = none) :
    OrbitFS.rmdir s r p = ([], [some (CbError.api (ApiError.ENOTDIR
      ("no such file or directory: " ++ p)))]) ∧
    (∀ m, OrbitFS.rmdir s r p ≠
      ([], [some (CbError.api (ApiError.ENOENT m))])) := by
  have h1 : OrbitFS.rmdir s r p = ([], [some (CbError.api (ApiError.ENOTDIR
      ("no such file or directory: " ++ p)))]) :=
    rmdir_of_ls_error s r p _ (store_ls_of_lookup_none s p h)
  refine ⟨h1, ?_⟩
  intro m hm
  rw [h1] at hm
  simp at hm

/-- Claim C10 witness: on the empty store, rmdir of "/nope" delivers the
ENOTDIR classification. -/
theorem rmdir_missing_path_enotdir_witness :
    OrbitFS.rmdir ([] : Store) none "/nope" = ([], [some (CbError.api
      (ApiError.ENOTDIR ("no such file or directory: " ++ "/nope")))]) :=
  (rmdir_missing_path_enotdir ([] : Store) none "/nope" rfl).1
